import Mathlib

/-
  Shallow embedding of cms/server/AdminWebServer.py: the authorization gate
  (AdminWebServer.authorized_rpc), the notification queue
  (AdminWebServer.add_notification, NotificationsHandler.get) and the
  multi-part upload handlers (AddStatementHandler, AddTestcaseHandler).
-/

/-- A Python numeric value, distinguishing ints from floats: time.time()
returns a float, int(time.time()) an int. Only the tag and the magnitude
are modelled; float arithmetic is never performed. -/
inductive PyNum where
  | int : Int → PyNum
  | float : Rat → PyNum
deriving DecidableEq, Repr

/-- Whether a PyNum is a Python int. -/
def PyNum.isInt : PyNum → Bool
  | .int _ => true
  | .float _ => false

/-- cms.async ServiceCoord: a (name, shard) pair, compared componentwise. -/
structure ServiceCoord where
  name : String
  shard : Nat
deriving DecidableEq, Repr

/-- The arguments dict of an RPC call, opaque to the gate. -/
abbrev Args := List (String × String)

/-- AdminWebServer.authorized_rpc (lines 168-197): a chain of name/method
comparisons; each block either returns True or falls through, ending in
the default `return False`. The arguments parameter is never read. -/
def authorized_rpc (service : ServiceCoord) (method : String) (arguments : Args) : Bool :=
  if service = ⟨"EvaluationService", 0⟩ ∧
      (method = "submissions_status" ∨ method = "queue_status" ∨
       method = "workers_status") then
    true
  else if service = ⟨"LogService", 0⟩ ∧ method = "last_messages" then
    true
  else if service.name = "ResourceService" ∧
      (method = "get_resources" ∨ method = "kill_service") then
    true
  else
    false

/-- The explicit allow-list entries appearing in authorized_rpc, as a
predicate on (service, method): EvaluationService shard 0 with its three
status methods, LogService shard 0 with last_messages, and ResourceService
at any shard with get_resources and kill_service. -/
def allowListed (service : ServiceCoord) (method : String) : Prop :=
  (service = ⟨"EvaluationService", 0⟩ ∧
     (method = "submissions_status" ∨ method = "queue_status" ∨
      method = "workers_status")) ∨
  (service = ⟨"LogService", 0⟩ ∧ method = "last_messages") ∨
  (service.name = "ResourceService" ∧
     (method = "get_resources" ∨ method = "kill_service"))

instance (service : ServiceCoord) (method : String) : Decidable (allowListed service method) := by
  unfold allowListed
  infer_instance

theorem authorized_rpc_eq_true_iff (service : ServiceCoord) (method : String) (args : Args) :
    authorized_rpc service method args = true ↔ allowListed service method := by
  unfold authorized_rpc allowListed
  split
  · simp_all
  · split
    · simp_all
    · split
      · simp_all
      · simp_all

/-- C3: every (service, method) pair not in the explicit allow-list is denied
(fail-closed default), and at EvaluationService shard 0 the method
queue_status is allowed while shutdown is denied. -/
theorem authorized_rpc_default_deny :
    (∀ (service : ServiceCoord) (method : String) (args : Args),
        ¬ allowListed service method → authorized_rpc service method args = false) ∧
    (∀ args : Args, authorized_rpc ⟨"EvaluationService", 0⟩ "queue_status" args = true) ∧
    (∀ args : Args, authorized_rpc ⟨"EvaluationService", 0⟩ "shutdown" args = false) := by
  refine ⟨?_, fun args => rfl, fun args => rfl⟩
  intro service method args h
  have := authorized_rpc_eq_true_iff service method args
  cases hb : authorized_rpc service method args
  · rfl
  · exact absurd (this.mp hb) h

/-- Witness for C3 at a concrete non-listed pair. -/
theorem authorized_rpc_default_deny_witness :
    ¬ allowListed ⟨"EvaluationService", 0⟩ "shutdown" ∧
    authorized_rpc ⟨"EvaluationService", 0⟩ "shutdown" [] = false :=
  ⟨by decide, authorized_rpc_default_deny.1 ⟨"EvaluationService", 0⟩ "shutdown" [] (by decide)⟩

/-- C4: authorized_rpc is total (always yields a boolean) and its result does
not depend on the arguments dict; determinism is immediate since it is a
pure function of its inputs. -/
theorem authorized_rpc_pure_total (service : ServiceCoord) (method : String) (a1 a2 : Args) :
    authorized_rpc service method a1 = authorized_rpc service method a2 ∧
    (authorized_rpc service method a1 = true ∨ authorized_rpc service method a1 = false) :=
  ⟨rfl, Bool.eq_false_or_eq_true (authorized_rpc service method a1)⟩

/-- C10: kill_service is allow-listed for ResourceService at every shard
index, with no shard bound, while the EvaluationService and LogService
entries only match shard 0. -/
theorem kill_service_authorized_all_shards (s : Nat) (args : Args) :
    authorized_rpc ⟨"ResourceService", s⟩ "kill_service" args = true ∧
    authorized_rpc ⟨"EvaluationService", 1⟩ "queue_status" args = false ∧
    authorized_rpc ⟨"LogService", 1⟩ "last_messages" args = false := by
  refine ⟨?_, rfl, rfl⟩
  simp [authorized_rpc]

/-- One pending notification as stored by AdminWebServer.add_notification:
the (timestamp, subject, text) tuple appended to self.notifications. -/
structure NotifTuple where
  timestamp : PyNum
  subject : String
  text : String
deriving DecidableEq, Repr

/-- AdminWebServer state relevant to the core: the pending-notification
list self.notifications (initialised to [] in __init__). -/
structure AdminState where
  notifications : List NotifTuple
deriving DecidableEq, Repr

/-- AdminWebServer.add_notification (lines 199-208): appends the tuple. -/
def add_notification (st : AdminState) (timestamp : PyNum) (subject text : String) : AdminState :=
  { st with notifications := st.notifications ++ [⟨timestamp, subject, text⟩] }

/-- An unanswered-question row as read by NotificationsHandler.get. -/
structure Question where
  question_timestamp : Int
  reply_timestamp : Option Int
  subject : String
  text : String
deriving DecidableEq, Repr

/-- One JSON entry of the list written by NotificationsHandler.get. -/
structure ResEntry where
  type : String
  timestamp : PyNum
  subject : String
  text : String
deriving DecidableEq, Repr

def mkQuestionEntry (q : Question) : ResEntry :=
  ⟨"new_question", .int q.question_timestamp, q.subject, q.text⟩

def mkNotifEntry (n : NotifTuple) : ResEntry :=
  ⟨"notification", n.timestamp, n.subject, n.text⟩

/-- NotificationsHandler.get (lines 1164-1193): first the unanswered
questions newer than the float argument last_notification, then every
pending notification in list order; afterwards self.notifications is
reset to []. -/
def notifications_get (questions : List Question) (last_notification : Rat) (st : AdminState) :
    List ResEntry × AdminState :=
  let qres := (questions.filter fun q =>
      decide (q.reply_timestamp = none ∧
        last_notification < (q.question_timestamp : Rat))).map mkQuestionEntry
  let nres := st.notifications.map mkNotifEntry
  (qres ++ nres, { st with notifications := [] })

/-- The entries of type "notification" in a result list. -/
def notifEntries (res : List ResEntry) : List ResEntry :=
  res.filter fun e => decide (e.type = "notification")

theorem notifEntries_mkQuestion (l : List Question) (f : Question → Bool) :
    notifEntries (((l.filter f).map mkQuestionEntry)) = [] := by
  unfold notifEntries
  induction l.filter f with
  | nil => rfl
  | cons q t ih => simpa [mkQuestionEntry] using ih

theorem notifEntries_mkNotif (l : List NotifTuple) :
    notifEntries (l.map mkNotifEntry) = l.map mkNotifEntry := by
  unfold notifEntries
  induction l with
  | nil => rfl
  | cons n t ih => simpa [mkNotifEntry] using ih

theorem notifEntries_get (questions : List Question) (l : Rat) (st : AdminState) :
    notifEntries (notifications_get questions l st).1 = st.notifications.map mkNotifEntry := by
  have h1 := notifEntries_mkQuestion questions (fun q =>
      decide (q.reply_timestamp = none ∧ l < (q.question_timestamp : Rat)))
  have h2 := notifEntries_mkNotif st.notifications
  unfold notifEntries at h1 h2 ⊢
  unfold notifications_get
  rw [List.filter_append, h1, h2, List.nil_append]

/-- C5: a drain returns the pending notifications in append order and empties
the queue, so an immediately repeated drain returns no notification entries;
concretely, after appending timestamps 1, 2, 3 a drain returns them in that
order, and after appending 4 a second drain returns exactly the entry 4. -/
theorem notifications_drain_append_order :
    (∀ (questions : List Question) (l : Rat) (st : AdminState),
        notifEntries (notifications_get questions l st).1 = st.notifications.map mkNotifEntry ∧
        (notifications_get questions l st).2.notifications = [] ∧
        notifEntries (notifications_get questions l (notifications_get questions l st).2).1 = []) ∧
    ((notifications_get [] 0 (add_notification (add_notification (add_notification ⟨[]⟩
          (.int 1) "s1" "t1") (.int 2) "s2" "t2") (.int 3) "s3" "t3")).1 =
        [⟨"notification", .int 1, "s1", "t1"⟩, ⟨"notification", .int 2, "s2", "t2"⟩,
         ⟨"notification", .int 3, "s3", "t3"⟩]) ∧
    ((notifications_get [] 0 (add_notification (notifications_get [] 0
          (add_notification (add_notification (add_notification ⟨[]⟩
            (.int 1) "s1" "t1") (.int 2) "s2" "t2") (.int 3) "s3" "t3")).2
          (.int 4) "s4" "t4")).1 =
        [⟨"notification", .int 4, "s4", "t4"⟩]) := by
  refine ⟨?_, rfl, rfl⟩
  intro questions l st
  refine ⟨notifEntries_get questions l st, rfl, ?_⟩
  rw [notifEntries_get]
  rfl

/-- C8: the last_notification argument only filters the computed question
signals: the notification-type entries, and the queue state after the drain,
are identical for any two values of the argument, and every pending
notification is returned. -/
theorem last_notification_filters_only_computed_signals
    (questions : List Question) (l1 l2 : Rat) (st : AdminState) :
    notifEntries (notifications_get questions l1 st).1 =
      notifEntries (notifications_get questions l2 st).1 ∧
    notifEntries (notifications_get questions l1 st).1 = st.notifications.map mkNotifEntry ∧
    (notifications_get questions l1 st).2 = (notifications_get questions l2 st).2 := by
  refine ⟨?_, notifEntries_get questions l1 st, rfl⟩
  rw [notifEntries_get, notifEntries_get]

/-- AddStatementHandler state: the service's notification list, the task's
statement digest, whether the session committed, and the redirect targets
issued so far. -/
structure StatementState where
  service : AdminState
  statement : Option String
  committed : Bool
  redirects : List String
deriving DecidableEq, Repr

def statement_init : StatementState := ⟨⟨[]⟩, none, false, []⟩

/-- AddStatementHandler.storage_callback (lines 344-354): on success stores
the digest and commits; on error adds a notification stamped with
time.time() (a float) and redirects back to the form. -/
def statement_storage_callback (now : Rat) (st : StatementState)
    (data plus : Option String) (error : Option String) : StatementState :=
  match error with
  | none =>
      { st with statement := data, committed := true,
                redirects := st.redirects ++ ["/task"] }
  | some err =>
      { st with service := add_notification st.service (.float now)
                  "Task statement storage failed" err,
                redirects := st.redirects ++ ["/add_statement"] }

/-- AddStatementHandler.post, branch for a filename not ending in ".pdf"
(lines 330-334): add_notification is called with time.time(), a float. -/
def statement_post_invalid_pdf (now : Rat) (st : StatementState) : StatementState :=
  { st with service := add_notification st.service (.float now)
              "Invalid task statement" "The task statement must be a .pdf file.",
            redirects := st.redirects ++ ["/add_statement"] }

/-- AddStatementHandler.post, valid-filename branch (lines 336-342),
parametrized by the synchronous return value of FS.put_file: when it is
False the handler itself invokes storage_callback with the error
"Connection failed."; otherwise the asynchronous callback is pending and
the state is unchanged. -/
def statement_post_valid (now : Rat) (put_file_ok : Bool) (st : StatementState) : StatementState :=
  if put_file_ok = false then
    statement_storage_callback now st none none (some "Connection failed.")
  else
    st

/-- One committed Testcase row, keeping the two digests the handler reads
from successful_calls (the other constructor arguments are task-local). -/
structure TestcaseRecord where
  input_digest : Option String
  output_digest : Option String
deriving DecidableEq, Repr

/-- AddTestcaseHandler state: the service's notification list, the
successful_calls dict (as an insertion-ordered association list with
unique keys), the Testcase rows committed so far, and the redirects. -/
structure TestcaseState where
  service : AdminState
  successful_calls : List (Option String × Option String)
  committed : List TestcaseRecord
  redirects : List String
deriving DecidableEq, Repr

/-- State right after AddTestcaseHandler.post set successful_calls = {}. -/
def testcase_init : TestcaseState := ⟨⟨[]⟩, [], [], []⟩

/-- Python dict assignment d[k] = v: overwrite in place if the key exists,
otherwise append. -/
def dictSet (d : List (Option String × Option String)) (k v : Option String) :
    List (Option String × Option String) :=
  if d.any fun p => decide (p.1 = k) then
    d.map fun p => if p.1 = k then (k, v) else p
  else
    d ++ [(k, v)]

/-- Python dict lookup d[k], as an Option (none models a KeyError). -/
def dictGet (d : List (Option String × Option String)) (k : Option String) :
    Option (Option String) :=
  (d.find? fun p => decide (p.1 = k)).map Prod.snd

/-- AddTestcaseHandler.storage_callback (lines 511-528). On success the
result is recorded under its plus tag; once the dict holds at least two
entries the Testcase is built from successful_calls of "input" and
"output" (a missing key is a Python KeyError, modelled as Except.error)
and committed, and the handler redirects to the task page. On error a
notification stamped time.time() (a float) is added and the handler
redirects back to the form. No terminal flag is consulted or set. -/
def testcase_storage_callback (now : Rat) (st : TestcaseState)
    (data plus : Option String) (error : Option String) : Except String TestcaseState :=
  match error with
  | none =>
    let sc := dictSet st.successful_calls plus data
    if 2 ≤ sc.length then
      match dictGet sc (some "input") with
      | none => .error "KeyError"
      | some inp =>
        match dictGet sc (some "output") with
        | none => .error "KeyError"
        | some outp =>
          .ok { st with successful_calls := sc,
                        committed := st.committed ++ [⟨inp, outp⟩],
                        redirects := st.redirects ++ ["/task"] }
    else
      .ok { st with successful_calls := sc }
  | some err =>
    .ok { st with service := add_notification st.service (.float now)
                    "Testcase storage failed" err,
                  redirects := st.redirects ++ ["/add_testcase"] }

/-- Run a sequence of (data, plus, error) completion callbacks against a
testcase-handler state. -/
def runCallbacks (now : Rat) (st : TestcaseState) :
    List (Option String × Option String × Option String) → Except String TestcaseState
  | [] => .ok st
  | (data, plus, error) :: rest => do
    let st' ← testcase_storage_callback now st data plus error
    runCallbacks now st' rest

/-- AddTestcaseHandler.post (lines 483-509), parametrized by the synchronous
return values of the two FS.put_file calls: each False return makes the
handler itself invoke storage_callback with the error "Connection failed.",
and the second put is attempted regardless of the first's outcome. -/
def testcase_post (now : Rat) (put_input put_output : Bool) : Except String TestcaseState := do
  let st0 := testcase_init
  let st1 ← if put_input = false then
      testcase_storage_callback now st0 none none (some "Connection failed.")
    else pure st0
  let st2 ← if put_output = false then
      testcase_storage_callback now st1 none none (some "Connection failed.")
    else pure st1
  pure st2

/-- C2: with both tags reporting success and no failure, in either callback
order, exactly one Testcase is committed, carrying input digest d1 and
output digest d2, and only after both callbacks have arrived. -/
theorem testcase_success_fires_once_complete (now : Rat) (d1 d2 : String) :
    (runCallbacks now testcase_init [(some d1, some "input", none)]).map
        (fun st => st.committed) = .ok [] ∧
    (runCallbacks now testcase_init
        [(some d1, some "input", none), (some d2, some "output", none)]).map
        (fun st => (st.committed, st.redirects)) = .ok ([⟨some d1, some d2⟩], ["/task"]) ∧
    (runCallbacks now testcase_init [(some d2, some "output", none)]).map
        (fun st => st.committed) = .ok [] ∧
    (runCallbacks now testcase_init
        [(some d2, some "output", none), (some d1, some "input", none)]).map
        (fun st => (st.committed, st.redirects)) = .ok ([⟨some d1, some d2⟩], ["/task"]) :=
  ⟨rfl, rfl, rfl, rfl⟩

/-- C1: refuted on the code — after reportSuccess for "input", a failure for
"output", and a late success for "output", the success action fires (a
Testcase is committed and the task redirect issued) even though the session
already failed; and a second failure fires the failure notification again. -/
theorem late_success_after_failure_fires (now : Rat) (d1 d2 : String) :
    (runCallbacks now testcase_init
        [(some d1, some "input", none), (none, some "output", some "disk full"),
         (some d2, some "output", none)]).map
        (fun st => (st.committed, st.service.notifications, st.redirects)) =
      .ok ([⟨some d1, some d2⟩],
           [⟨.float now, "Testcase storage failed", "disk full"⟩],
           ["/add_testcase", "/task"]) ∧
    (runCallbacks now testcase_init
        [(none, some "output", some "disk full"), (none, some "input", some "disk full")]).map
        (fun st => st.service.notifications.length) = .ok 2 :=
  ⟨rfl, rfl⟩

/-- C7: refuted on the code — a success callback whose tag lies outside the
expected set is silently recorded into successful_calls with no rejection or
log; it counts toward the two-entry threshold (a KeyError instead of a
logged rejection when a real tag follows), and after a completed session a
stray success fires the success action a second time. -/
theorem stray_tag_silently_recorded (now : Rat) (d d1 d2 : String) :
    (testcase_storage_callback now testcase_init (some d) (some "garbage") none).map
        (fun st => (st.successful_calls, st.service.notifications, st.redirects)) =
      .ok ([(some "garbage", some d)], [], []) ∧
    runCallbacks now testcase_init
        [(some d, some "garbage", none), (some d1, some "input", none)] =
      .error "KeyError" ∧
    (runCallbacks now testcase_init
        [(some d1, some "input", none), (some d2, some "output", none),
         (some d, some "garbage", none)]).map
        (fun st => st.committed.length) = .ok 2 :=
  ⟨rfl, rfl, rfl⟩

/-- C6: a synchronous False return from FS.put_file is reported through the
same storage_callback used for asynchronous completions, with the error
"Connection failed.", and no exception reaches the caller: testcase_post
returns a normal state for every combination of put_file outcomes. -/
theorem sync_put_failure_uses_callback_path (now : Rat) :
    statement_post_valid now false statement_init =
      statement_storage_callback now statement_init none none (some "Connection failed.") ∧
    (statement_post_valid now false statement_init).service.notifications =
      [⟨.float now, "Task statement storage failed", "Connection failed."⟩] ∧
    (statement_post_valid now false statement_init).committed = false ∧
    (testcase_post now false true).map (fun st => st.service.notifications) =
      .ok [⟨.float now, "Testcase storage failed", "Connection failed."⟩] ∧
    (∀ i o : Bool, ∃ st, testcase_post now i o = .ok st) := by
  refine ⟨rfl, rfl, rfl, rfl, ?_⟩
  intro i o
  cases i <;> cases o <;> exact ⟨_, rfl⟩

/-- C9: refuted on the code — AddStatementHandler.post passes time.time(),
a Python float, as the timestamp of the notification it appends, so the
appended notification's timestamp is not an integer. -/
theorem statement_notification_timestamp_float (now : Rat) (st : StatementState) :
    ((statement_post_invalid_pdf now st).service.notifications.getLast?).map
        (fun n => n.timestamp.isInt) = some false ∧
    ((statement_post_invalid_pdf now st).service.notifications.getLast?).map
        (fun n => n.timestamp) = some (.float now) := by
  constructor <;> simp [statement_post_invalid_pdf, add_notification, PyNum.isInt]
